import Mathlib

/-!
Verification of the collection, storage and alerting pipeline of the
Aria Suite health dashboard (file src/tools/monitoring/aria-health-dashboard.py).

The Python classes are shallowly embedded as Lean structures and pure
state-passing functions:

- DatabaseManager becomes a Database value holding the two tables (metrics,
  alerts) as lists of rows with autoincrement ids; store_metric, get_metrics
  and store_alert mirror the SQL statements.
- AlertManager.check_alert_condition, evaluate_alerts, trigger_alert and
  send_email_alert become functions over Database together with a NotifyLog
  recording submitted and delivered notifications; delivery outcomes are an
  oracle parameter, since SMTP is external.
- AriaHealthCollector.collect_all_metrics and the per-type collectors become
  a fold over the task list; the HTTP fetch outcome is an oracle returning
  either an error (exception, auth failure, non-2xx) or the resource list,
  and a second oracle says which store_metric calls succeed, so that
  mid-stream failures of a batch can be expressed.

Metric values and thresholds (Python floats) are modelled as rationals;
timestamps (datetime values) as integers counting seconds.
-/

namespace AriaDash

/-- Endpoint configuration, from the AriaEndpoint dataclass. -/
structure AriaEndpoint where
  name : String
  url : String
  username : String
  password : String
  type : String
  enabled : Bool := true
deriving DecidableEq

/-- A health metric sample, from the HealthMetric dataclass. -/
structure HealthMetric where
  endpoint : String
  metric_name : String
  value : ℚ
  unit : String
  timestamp : Int
  status : String
  threshold_warning : ℚ := 80
  threshold_critical : ℚ := 90
deriving DecidableEq

/-- Alert rule configuration, from the AlertRule dataclass. -/
structure AlertRule where
  name : String
  metric_pattern : String
  condition : String
  threshold : ℚ
  severity : String
  enabled : Bool := true
deriving DecidableEq

/-- A row of the metrics table (id is the autoincrement primary key). -/
structure MetricRow where
  id : Nat
  endpoint : String
  metric_name : String
  value : ℚ
  unit : String
  timestamp : Int
  status : String
deriving DecidableEq

/-- A row of the alerts table (id is the autoincrement primary key). -/
structure AlertRow where
  id : Nat
  rule_name : String
  endpoint : String
  metric_name : String
  value : ℚ
  threshold : ℚ
  severity : String
  message : String
  timestamp : Int
  acknowledged : Bool
deriving DecidableEq

/-- The columns selected by DatabaseManager.get_metrics (no id column):
the dict rows handed to the alert manager and the dashboard. -/
structure MetricData where
  endpoint : String
  metric_name : String
  value : ℚ
  unit : String
  timestamp : Int
  status : String
deriving DecidableEq

/-- The SQLite database of DatabaseManager: the two tables plus the next
autoincrement id of each. -/
structure Database where
  metrics : List MetricRow
  nextMetricId : Nat
  alerts : List AlertRow
  nextAlertId : Nat
deriving DecidableEq

/-- A freshly initialised database (init_database creates empty tables). -/
def emptyDb : Database := ⟨[], 0, [], 0⟩

/-- Projection of a stored row to the columns get_metrics selects. -/
def rowProj (r : MetricRow) : MetricData :=
  ⟨r.endpoint, r.metric_name, r.value, r.unit, r.timestamp, r.status⟩

/-- The stored columns of a HealthMetric (store_metric inserts exactly
these six fields; the two threshold fields of the dataclass are not stored). -/
def metricData (m : HealthMetric) : MetricData :=
  ⟨m.endpoint, m.metric_name, m.value, m.unit, m.timestamp, m.status⟩

/-- DatabaseManager.store_metric: INSERT INTO metrics of the six fields,
with the autoincrement id. -/
def store_metric (db : Database) (m : HealthMetric) : Database :=
  { db with
      metrics := db.metrics ++
        [⟨db.nextMetricId, m.endpoint, m.metric_name, m.value, m.unit,
          m.timestamp, m.status⟩],
      nextMetricId := db.nextMetricId + 1 }

/-- DatabaseManager.store_alert: INSERT INTO alerts; the timestamp column
is datetime.now() at the time of the insert, passed here as the argument
now, and acknowledged defaults to FALSE. -/
def store_alert (db : Database) (rule_name endpoint metric_name : String)
    (value threshold : ℚ) (severity message : String) (now : Int) : Database :=
  { db with
      alerts := db.alerts ++
        [⟨db.nextAlertId, rule_name, endpoint, metric_name, value, threshold,
          severity, message, now, false⟩],
      nextAlertId := db.nextAlertId + 1 }

/-- The WHERE clause of get_metrics: timestamp at or after the cutoff, and
the two optional equality filters. -/
def metricFilter (endpoint metric_name : Option String) (cutoff : Int)
    (r : MetricRow) : Bool :=
  decide (cutoff ≤ r.timestamp) &&
    (match endpoint with
     | some e => decide (r.endpoint = e)
     | none => true) &&
    (match metric_name with
     | some n => decide (r.metric_name = n)
     | none => true)

/-- ORDER BY timestamp DESC: a row sorts before another when its timestamp
is at least as large. -/
def newerFirst (a b : MetricRow) : Prop := b.timestamp ≤ a.timestamp

instance : DecidableRel newerFirst :=
  fun a b => inferInstanceAs (Decidable (b.timestamp ≤ a.timestamp))

instance : IsTotal MetricRow newerFirst :=
  ⟨fun a b => le_total b.timestamp a.timestamp⟩

instance : IsTrans MetricRow newerFirst :=
  ⟨fun _ _ _ h1 h2 => le_trans h2 h1⟩

/-- DatabaseManager.get_metrics: select the six columns of the rows whose
timestamp is within hours_back hours of now (the cutoff is
now - hours_back hours) and that pass the optional endpoint and
metric_name equality filters, ordered newest first. -/
def get_metrics (db : Database) (endpoint metric_name : Option String)
    (now : Int) (hours_back : Int) : List MetricData :=
  ((db.metrics.filter
      (metricFilter endpoint metric_name (now - hours_back * 3600))).insertionSort
    newerFirst).map rowProj

/-- Python substring containment (the expression
rule.metric_pattern in metric_name): the pattern occurs contiguously. -/
def strContains (pat s : String) : Bool := decide (pat.data <:+: s.data)

/-- AlertManager.check_alert_condition. -/
def check_alert_condition (rule : AlertRule) (value : ℚ) : Bool :=
  if rule.condition = "greater_than" then decide (value > rule.threshold)
  else if rule.condition = "less_than" then decide (value < rule.threshold)
  else if rule.condition = "equals" then
    decide (|value - rule.threshold| < mkRat 1 100)
  else false

/-- The list comprehension of evaluate_alerts: the recent metrics whose
metric_name contains the pattern of the rule as a substring. -/
def matching_metrics (rule : AlertRule) (recent : List MetricData) :
    List MetricData :=
  recent.filter (fun m => strContains rule.metric_pattern m.metric_name)

/-- Record of notification activity: every send_email_alert invocation is
appended to attempted; the ones whose SMTP delivery succeeded are also in
delivered. -/
structure NotifyLog where
  attempted : List String
  delivered : List String
deriving DecidableEq

/-- The alert message built by trigger_alert (an f-string over the rule and
the metric dict). -/
def alertMessage (rule : AlertRule) (m : MetricData) : String :=
  "Alert: " ++ rule.name ++ "\n" ++
  "Metric: " ++ m.metric_name ++ "\n" ++
  "Value: " ++ toString m.value ++ " " ++ m.unit ++ "\n" ++
  "Threshold: " ++ toString rule.threshold ++ "\n" ++
  "Severity: " ++ rule.severity ++ "\n" ++
  "Endpoint: " ++ m.endpoint ++ "\n" ++
  "Time: " ++ toString m.timestamp

/-- AlertManager.send_email_alert: the SMTP send is attempted; any delivery
exception is caught inside the function, so it always returns. deliverOk
says whether the external SMTP delivery succeeded. -/
def send_email_alert (deliverOk : Bool) (message : String) (log : NotifyLog) :
    NotifyLog :=
  ⟨log.attempted ++ [message],
   if deliverOk then log.delivered ++ [message] else log.delivered⟩

/-- AlertManager.trigger_alert: build the message, store the alert row
(datetime.now() of the insert is the argument now), then send the email
notification only for warning or critical severity. -/
def trigger_alert (now : Int) (deliverOk : Bool) (rule : AlertRule)
    (m : MetricData) (st : Database × NotifyLog) : Database × NotifyLog :=
  let message := alertMessage rule m
  (store_alert st.1 rule.name m.endpoint m.metric_name m.value rule.threshold
     rule.severity message now,
   if rule.severity = "warning" ∨ rule.severity = "critical" then
     send_email_alert deliverOk message st.2
   else st.2)

/-- One (rule, sample) step of evaluate_alerts: trigger the alert when the
condition check passes, otherwise leave the state unchanged. The deliver
oracle gives the SMTP outcome of each message. -/
def processPair (now : Int) (deliver : String → Bool) (rule : AlertRule)
    (m : MetricData) (st : Database × NotifyLog) : Database × NotifyLog :=
  if check_alert_condition rule m.value then
    trigger_alert now (deliver (alertMessage rule m)) rule m st
  else st

/-- The inner loop of evaluate_alerts for one enabled rule: fold over the
metrics matching the pattern of the rule. -/
def processRule (now : Int) (deliver : String → Bool)
    (recent : List MetricData) (rule : AlertRule)
    (st : Database × NotifyLog) : Database × NotifyLog :=
  (matching_metrics rule recent).foldl
    (fun st m => processPair now deliver rule m st) st

/-- AlertManager.evaluate_alerts: read the metrics of the last hour once,
then for every enabled rule process its matching metrics; disabled rules
are skipped. -/
def evaluate_alerts (now : Int) (deliver : String → Bool)
    (rules : List AlertRule) (st : Database × NotifyLog) :
    Database × NotifyLog :=
  let recent := get_metrics st.1 none none now 1
  rules.foldl
    (fun st rule =>
      if rule.enabled then processRule now deliver recent rule st else st)
    st

/-- The inner storing loop of the collectors: store each metric of a batch
in order with its own INSERT; canStore says which store_metric calls
succeed, and the first failing one raises, leaving the earlier inserts in
place and the rest of the batch unstored. Returns the database together
with whether the whole batch went through. -/
def storeSeq (canStore : HealthMetric → Bool) (ms : List HealthMetric)
    (db : Database) : Database × Bool :=
  match ms with
  | [] => (db, true)
  | m :: rest =>
    if canStore m then storeSeq canStore rest (store_metric db m)
    else (db, false)

/-- The two simulated health metrics process_operations_resources builds
for one resource (health score 95.0, cpu usage 65.5). -/
def simulated_metrics (e : AriaEndpoint) (now : Int) (resource_name : String) :
    List HealthMetric :=
  [⟨e.name, "cluster_health_" ++ resource_name, 95, "percent", now,
    "healthy", 80, 90⟩,
   ⟨e.name, "cluster_cpu_usage_" ++ resource_name, mkRat 131 2, "percent",
    now, "healthy", 80, 90⟩]

/-- AriaHealthCollector.process_operations_resources: for each resource of
the response, build its two simulated metrics and store them one by one; a
failure mid-stream stops the loop there (the exception propagates to the
caller), keeping everything already inserted. -/
def process_operations_resources (canStore : HealthMetric → Bool)
    (e : AriaEndpoint) (now : Int) (resource_names : List String)
    (db : Database) : Database × Bool :=
  match resource_names with
  | [] => (db, true)
  | n :: rest =>
    let r := storeSeq canStore (simulated_metrics e now n) db
    if r.2 then process_operations_resources canStore e now rest r.1
    else r

/-- AriaHealthCollector.collect_operations_metrics: authenticate and fetch
the resource list; an auth failure, a non-2xx response or any exception
(also one escaping process_operations_resources) is caught and only
logged, so the call always returns the database it reached. The
fetchResources oracle gives the outcome of the HTTP part per endpoint. -/
def collect_operations_metrics (canStore : HealthMetric → Bool)
    (fetchResources : AriaEndpoint → Except String (List String))
    (now : Int) (e : AriaEndpoint) (db : Database) : Database :=
  match fetchResources e with
  | Except.error _ => db
  | Except.ok names => (process_operations_resources canStore e now names db).1

/-- The two simulated metrics of collect_automation_metrics
(deployment_success_rate 98.5, active_deployments 45). -/
def automation_metrics (e : AriaEndpoint) (now : Int) : List HealthMetric :=
  [⟨e.name, "deployment_success_rate", mkRat 197 2, "percent", now,
    "healthy", 80, 90⟩,
   ⟨e.name, "active_deployments", 45, "count", now, "healthy", 80, 90⟩]

/-- AriaHealthCollector.collect_automation_metrics: store the simulated
batch; any exception is caught and logged. -/
def collect_automation_metrics (canStore : HealthMetric → Bool) (now : Int)
    (e : AriaEndpoint) (db : Database) : Database :=
  (storeSeq canStore (automation_metrics e now) db).1

/-- The two simulated metrics of collect_network_insight_metrics
(network_flows_per_second 15420, network_latency_avg 2.3). -/
def network_insight_metrics (e : AriaEndpoint) (now : Int) :
    List HealthMetric :=
  [⟨e.name, "network_flows_per_second", 15420, "flows/sec", now, "healthy",
    80, 90⟩,
   ⟨e.name, "network_latency_avg", mkRat 23 10, "ms", now, "healthy", 80, 90⟩]

/-- AriaHealthCollector.collect_network_insight_metrics: store the
simulated batch; any exception is caught and logged. -/
def collect_network_insight_metrics (canStore : HealthMetric → Bool)
    (now : Int) (e : AriaEndpoint) (db : Database) : Database :=
  (storeSeq canStore (network_insight_metrics e now) db).1

/-- The task list built by collect_all_metrics: one fetch task per enabled
endpoint whose type is one of the three recognised strings; any other
endpoint gets no task. -/
def collect_tasks (endpoints : List AriaEndpoint) : List AriaEndpoint :=
  endpoints.filter
    (fun e => e.enabled &&
      (decide (e.type = "operations") || decide (e.type = "automation") ||
       decide (e.type = "network-insight")))

/-- The body of one task: dispatch on the endpoint type string, as the
if/elif chain of collect_all_metrics does. Only called for the three
recognised types. -/
def collectTask (canStore : HealthMetric → Bool)
    (fetchResources : AriaEndpoint → Except String (List String))
    (now : Int) (e : AriaEndpoint) (db : Database) : Database :=
  if e.type = "operations" then
    collect_operations_metrics canStore fetchResources now e db
  else if e.type = "automation" then
    collect_automation_metrics canStore now e db
  else
    collect_network_insight_metrics canStore now e db

/-- AriaHealthCollector.collect_all_metrics: gather all tasks of the tick;
asyncio.gather with return_exceptions=True never propagates a task
failure, and each task already contains all its own failure handling, so
the tick is the fold of the tasks over the shared database. -/
def collect_all_metrics (canStore : HealthMetric → Bool)
    (fetchResources : AriaEndpoint → Except String (List String))
    (now : Int) (endpoints : List AriaEndpoint) (db : Database) : Database :=
  (collect_tasks endpoints).foldl
    (fun db e => collectTask canStore fetchResources now e db) db

/-- The batch of samples a task of the tick produces for an endpoint of a
recognised type: the flattened simulated metrics of the fetched resources
for operations (empty when the fetch fails), and the fixed simulated
batches of the other two types. -/
def endpointBatch (fetchResources : AriaEndpoint → Except String (List String))
    (now : Int) (e : AriaEndpoint) : List HealthMetric :=
  if e.type = "operations" then
    match fetchResources e with
    | Except.error _ => []
    | Except.ok names => names.flatMap (simulated_metrics e now)
  else if e.type = "automation" then automation_metrics e now
  else network_insight_metrics e now

/-- Concrete fixture: an operations endpoint (used with a failing fetch). -/
def opsFailEndpoint : AriaEndpoint :=
  ⟨"Aria Operations", "https://aria-ops.lab.local", "admin", "pw",
   "operations", true⟩

/-- Concrete fixture: an automation endpoint. -/
def autoEndpoint : AriaEndpoint :=
  ⟨"Aria Automation", "https://aria-automation.lab.local", "admin", "pw",
   "automation", true⟩

/-- Concrete fixture: an enabled endpoint of an unrecognised type. -/
def vcenterEndpoint : AriaEndpoint :=
  ⟨"vCenter", "https://vcenter.lab.local", "admin", "pw", "vcenter", true⟩

/-- Concrete fixture: a fetch oracle that fails for operations endpoints
(timeout) and returns an empty resource list otherwise. -/
def failingFetch : AriaEndpoint → Except String (List String) :=
  fun e => if e.type = "operations" then Except.error "timeout"
    else Except.ok []

/-- Concrete fixture: the first sample of the automation batch. -/
def autoSample : HealthMetric :=
  ⟨"Aria Automation", "deployment_success_rate", mkRat 197 2, "percent", 0,
   "healthy", 80, 90⟩

/-! ## The claims -/

/-- Helper: takeWhile distributes over an append whose first part fully
passes the test. -/
theorem takeWhile_append_all {α : Type} (p : α → Bool) (l₁ l₂ : List α)
    (h : l₁.all p = true) :
    (l₁ ++ l₂).takeWhile p = l₁ ++ l₂.takeWhile p := by
  induction l₁ with
  | nil => simp
  | cons a l ih =>
    simp only [List.all_cons, Bool.and_eq_true] at h
    simp [List.takeWhile_cons, h.1, ih h.2]

/-- Helper: takeWhile over an append stops inside a first part that fails
the test somewhere. -/
theorem takeWhile_append_not_all {α : Type} (p : α → Bool) (l₁ l₂ : List α)
    (h : l₁.all p = false) :
    (l₁ ++ l₂).takeWhile p = l₁.takeWhile p := by
  induction l₁ with
  | nil => simp at h
  | cons a l ih =>
    by_cases hp : p a
    · simp only [List.all_cons, hp, Bool.true_and] at h
      simp [List.takeWhile_cons, hp, ih h]
    · simp [List.takeWhile_cons, hp]

/-- Helper: takeWhile with the constantly true test keeps everything. -/
theorem takeWhile_const_true {α : Type} (l : List α) :
    l.takeWhile (fun _ => true) = l := by
  induction l with
  | nil => rfl
  | cons a l ih => simp [List.takeWhile_cons, ih]

/-- Helper: the rows storeSeq adds are exactly the longest prefix of the
batch whose inserts succeed, in order. -/
theorem storeSeq_fst_metrics (canStore : HealthMetric → Bool)
    (ms : List HealthMetric) (db : Database) :
    (storeSeq canStore ms db).1.metrics.map rowProj =
      db.metrics.map rowProj ++ (ms.takeWhile canStore).map metricData := by
  induction ms generalizing db with
  | nil => simp [storeSeq]
  | cons m rest ih =>
    by_cases h : canStore m
    · simp [storeSeq, h, ih, store_metric, List.takeWhile_cons, rowProj,
        metricData]
    · simp [storeSeq, h, List.takeWhile_cons]

/-- Helper: storeSeq reports success exactly when every insert of the batch
succeeds. -/
theorem storeSeq_snd (canStore : HealthMetric → Bool)
    (ms : List HealthMetric) (db : Database) :
    (storeSeq canStore ms db).2 = ms.all canStore := by
  induction ms generalizing db with
  | nil => rfl
  | cons m rest ih =>
    by_cases h : canStore m
    · simp [storeSeq, h, ih]
    · simp [storeSeq, h]

/-- Helper: storeSeq only appends rows. -/
theorem storeSeq_metrics_mono (canStore : HealthMetric → Bool)
    (ms : List HealthMetric) (db : Database) :
    ∃ l, (storeSeq canStore ms db).1.metrics = db.metrics ++ l := by
  induction ms generalizing db with
  | nil => exact ⟨[], by simp [storeSeq]⟩
  | cons m rest ih =>
    by_cases h : canStore m
    · obtain ⟨l, hl⟩ := ih (store_metric db m)
      refine ⟨⟨db.nextMetricId, m.endpoint, m.metric_name, m.value, m.unit,
        m.timestamp, m.status⟩ :: l, ?_⟩
      simp only [storeSeq, h, if_true]
      rw [hl]
      simp [store_metric]
    · exact ⟨[], by simp [storeSeq, h]⟩

/-- Helper: the rows process_operations_resources adds are exactly the
longest prefix of the flattened batch whose inserts succeed. -/
theorem process_fst_metrics (canStore : HealthMetric → Bool)
    (e : AriaEndpoint) (now : Int) (names : List String) (db : Database) :
    (process_operations_resources canStore e now names db).1.metrics.map
        rowProj =
      db.metrics.map rowProj ++
        (((names.flatMap (simulated_metrics e now)).takeWhile
          canStore).map metricData) := by
  induction names generalizing db with
  | nil => simp [process_operations_resources]
  | cons n rest ih =>
    cases hb : (simulated_metrics e now n).all canStore with
    | true =>
      have htw : (simulated_metrics e now n).takeWhile canStore =
          simulated_metrics e now n := by
        simpa using takeWhile_append_all canStore (simulated_metrics e now n)
          [] hb
      simp only [process_operations_resources, storeSeq_snd, hb, if_true]
      rw [ih, storeSeq_fst_metrics, htw, List.flatMap_cons,
        takeWhile_append_all _ _ _ hb, List.map_append, List.append_assoc]
    | false =>
      simp only [process_operations_resources, storeSeq_snd, hb,
        Bool.false_eq_true, if_false]
      rw [storeSeq_fst_metrics, List.flatMap_cons,
        takeWhile_append_not_all _ _ _ hb]

/-- Helper: process_operations_resources reports success exactly when the
whole flattened batch stores successfully. -/
theorem process_snd (canStore : HealthMetric → Bool) (e : AriaEndpoint)
    (now : Int) (names : List String) (db : Database) :
    (process_operations_resources canStore e now names db).2 =
      (names.flatMap (simulated_metrics e now)).all canStore := by
  induction names generalizing db with
  | nil => simp [process_operations_resources]
  | cons n rest ih =>
    cases hb : (simulated_metrics e now n).all canStore with
    | true =>
      simp [process_operations_resources, storeSeq_snd, hb,
        List.flatMap_cons, List.all_append, ih]
    | false =>
      simp [process_operations_resources, storeSeq_snd, hb,
        List.flatMap_cons, List.all_append]

/-- Helper: process_operations_resources only appends rows. -/
theorem process_metrics_mono (canStore : HealthMetric → Bool)
    (e : AriaEndpoint) (now : Int) (names : List String) (db : Database) :
    ∃ l, (process_operations_resources canStore e now names db).1.metrics =
      db.metrics ++ l := by
  induction names generalizing db with
  | nil => exact ⟨[], by simp [process_operations_resources]⟩
  | cons n rest ih =>
    obtain ⟨l1, h1⟩ :=
      storeSeq_metrics_mono canStore (simulated_metrics e now n) db
    cases hb : (storeSeq canStore (simulated_metrics e now n) db).2 with
    | true =>
      obtain ⟨l2, h2⟩ :=
        ih (storeSeq canStore (simulated_metrics e now n) db).1
      refine ⟨l1 ++ l2, ?_⟩
      simp only [process_operations_resources, hb, if_true]
      rw [h2, h1, List.append_assoc]
    | false =>
      exact ⟨l1, by simp [process_operations_resources, hb, h1]⟩

/-- Helper: one collector task only appends rows to the metrics table. -/
theorem collectTask_metrics_mono (canStore : HealthMetric → Bool)
    (fetchResources : AriaEndpoint → Except String (List String))
    (now : Int) (e : AriaEndpoint) (db : Database) :
    ∃ l, (collectTask canStore fetchResources now e db).metrics =
      db.metrics ++ l := by
  by_cases h1 : e.type = "operations"
  · simp only [collectTask, h1, if_true]
    rw [collect_operations_metrics]
    cases fetchResources e with
    | error err => exact ⟨[], by simp⟩
    | ok names => exact process_metrics_mono canStore e now names db
  · by_cases h2 : e.type = "automation"
    · simp only [collectTask, h1, if_false, h2, if_true]
      exact storeSeq_metrics_mono canStore (automation_metrics e now) db
    · simp only [collectTask, h1, if_false, h2]
      exact storeSeq_metrics_mono canStore (network_insight_metrics e now) db

/-- Helper: one collector task appends exactly the successfully stored
prefix of the batch of the endpoint. -/
theorem collectTask_fst_metrics (canStore : HealthMetric → Bool)
    (fetchResources : AriaEndpoint → Except String (List String))
    (now : Int) (e : AriaEndpoint) (db : Database) :
    (collectTask canStore fetchResources now e db).metrics.map rowProj =
      db.metrics.map rowProj ++
        (((endpointBatch fetchResources now e).takeWhile canStore).map
          metricData) := by
  by_cases h1 : e.type = "operations"
  · simp only [collectTask, endpointBatch, h1, if_true]
    rw [collect_operations_metrics]
    cases fetchResources e with
    | error err => simp
    | ok names => exact process_fst_metrics canStore e now names db
  · by_cases h2 : e.type = "automation"
    · simp only [collectTask, endpointBatch, h1, if_false, h2, if_true]
      exact storeSeq_fst_metrics canStore (automation_metrics e now) db
    · simp only [collectTask, endpointBatch, h1, if_false, h2]
      exact storeSeq_fst_metrics canStore (network_insight_metrics e now) db

/-- Helper: folding further collector tasks never loses an already stored
row. -/
theorem foldl_collectTask_mem (canStore : HealthMetric → Bool)
    (fetchResources : AriaEndpoint → Except String (List String))
    (now : Int) (ts : List AriaEndpoint) (db : Database) (d : MetricData)
    (h : d ∈ db.metrics.map rowProj) :
    d ∈ ((ts.foldl
        (fun db e => collectTask canStore fetchResources now e db)
        db).metrics.map rowProj) := by
  induction ts generalizing db with
  | nil => simpa using h
  | cons t ts ih =>
    simp only [List.foldl_cons]
    apply ih
    obtain ⟨l, hl⟩ := collectTask_metrics_mono canStore fetchResources now t db
    rw [hl, List.map_append]
    exact List.mem_append_left _ h

/-- C1: check_alert_condition matches the reference definition of the spec:
greater_than is the strict comparison value > threshold (so the threshold
itself does not match), less_than is value < threshold, and equals holds
exactly when the absolute difference is below the fixed tolerance 0.01, so
threshold + 0.005 matches while threshold + 0.02 does not. -/
theorem C1_check_alert_condition (nm pat sev : String) (en : Bool)
    (threshold value : ℚ) :
    (check_alert_condition ⟨nm, pat, "greater_than", threshold, sev, en⟩
        value = true ↔ value > threshold) ∧
    check_alert_condition ⟨nm, pat, "greater_than", threshold, sev, en⟩
        threshold = false ∧
    (check_alert_condition ⟨nm, pat, "less_than", threshold, sev, en⟩
        value = true ↔ value < threshold) ∧
    (check_alert_condition ⟨nm, pat, "equals", threshold, sev, en⟩
        value = true ↔ |value - threshold| < mkRat 1 100) ∧
    check_alert_condition ⟨nm, pat, "equals", threshold, sev, en⟩
        (threshold + mkRat 1 200) = true ∧
    check_alert_condition ⟨nm, pat, "equals", threshold, sev, en⟩
        (threshold + mkRat 1 50) = false := by
  refine ⟨by simp [check_alert_condition], ?_,
    by simp [check_alert_condition], by simp [check_alert_condition],
    ?_, ?_⟩
  · simp [check_alert_condition]
  · have h : |(mkRat 1 200 : ℚ)| < mkRat 1 100 := by
      rw [abs_of_nonneg (by decide)]
      decide
    simp [check_alert_condition, h]
  · have h : mkRat 1 100 ≤ |(mkRat 1 50 : ℚ)| := by
      rw [abs_of_nonneg (by decide)]
      decide
    simp [check_alert_condition, h]

/-- C2: during evaluation of an enabled rule, a recent sample is selected
exactly when the pattern of the rule occurs as a contiguous substring of
its metric name; in particular the pattern cpu_usage matches the names
cpu_usage and cpu_usage_vm1 but not memory_usage, and evaluate_alerts
processes an enabled rule through exactly this selection over the metrics
of the last hour. -/
theorem C2_substring_matching (rule : AlertRule) (recent : List MetricData)
    (m : MetricData) (nm pat cond sev : String) (thr : ℚ) (now : Int)
    (deliver : String → Bool) (st : Database × NotifyLog) :
    (m ∈ matching_metrics rule recent ↔
      m ∈ recent ∧ rule.metric_pattern.data <:+: m.metric_name.data) ∧
    strContains "cpu_usage" "cpu_usage" = true ∧
    strContains "cpu_usage" "cpu_usage_vm1" = true ∧
    strContains "cpu_usage" "memory_usage" = false ∧
    evaluate_alerts now deliver [⟨nm, pat, cond, thr, sev, true⟩] st =
      processRule now deliver (get_metrics st.1 none none now 1)
        ⟨nm, pat, cond, thr, sev, true⟩ st := by
  refine ⟨?_, by decide, by decide, by decide, ?_⟩
  · simp [matching_metrics, List.mem_filter, strContains]
  · simp [evaluate_alerts]

/-- C3: on a matching (rule, sample) pair, trigger_alert appends exactly one
alert row, denormalizing the name, threshold and severity of the rule and
the endpoint, metric name and value of the sample by value, and it submits
an email notification exactly when the severity of the rule is warning or
critical; an info severity leaves the notification log untouched. The last
conjunct ties this to evaluate_alerts: on a pair whose condition check
passes, the evaluation step is exactly trigger_alert. -/
theorem C3_trigger_persists_and_notifies (now : Int) (deliverOk : Bool)
    (deliver : String → Bool) (rule : AlertRule) (m : MetricData)
    (db : Database) (log : NotifyLog)
    (h : check_alert_condition rule m.value = true) :
    (trigger_alert now deliverOk rule m (db, log)).1.alerts =
      db.alerts ++ [⟨db.nextAlertId, rule.name, m.endpoint, m.metric_name,
        m.value, rule.threshold, rule.severity, alertMessage rule m, now,
        false⟩] ∧
    ((trigger_alert now deliverOk rule m (db, log)).2.attempted =
        log.attempted ++ [alertMessage rule m] ↔
      (rule.severity = "warning" ∨ rule.severity = "critical")) ∧
    (rule.severity = "info" →
      (trigger_alert now deliverOk rule m (db, log)).2.attempted =
        log.attempted) ∧
    processPair now deliver rule m (db, log) =
      trigger_alert now (deliver (alertMessage rule m)) rule m (db, log) := by
  refine ⟨by simp [trigger_alert, store_alert], ?_, ?_, ?_⟩
  · by_cases hs : rule.severity = "warning" ∨ rule.severity = "critical"
    · simp [trigger_alert, send_email_alert, hs]
    · simp [trigger_alert, send_email_alert, hs]
  · intro hi
    simp [trigger_alert, send_email_alert, hi]
  · simp [processPair, h]

/-- C3 witness: a cpu_usage rule of warning severity matching a sample of
value 90 against threshold 85 stores exactly one denormalized alert row. -/
theorem C3_trigger_persists_and_notifies_witness :
    check_alert_condition
        ⟨"High CPU Usage", "cpu_usage", "greater_than", 85, "warning", true⟩
        (90 : ℚ) = true ∧
    (trigger_alert 5 true
        ⟨"High CPU Usage", "cpu_usage", "greater_than", 85, "warning", true⟩
        ⟨"ep1", "cpu_usage_vm1", 90, "percent", 3, "healthy"⟩
        (emptyDb, ⟨[], []⟩)).1.alerts =
      emptyDb.alerts ++ [⟨emptyDb.nextAlertId, "High CPU Usage", "ep1",
        "cpu_usage_vm1", 90, 85, "warning",
        alertMessage
          ⟨"High CPU Usage", "cpu_usage", "greater_than", 85, "warning",
            true⟩
          ⟨"ep1", "cpu_usage_vm1", 90, "percent", 3, "healthy"⟩, 5,
        false⟩] :=
  ⟨by decide,
   (C3_trigger_persists_and_notifies 5 true (fun _ => true)
      ⟨"High CPU Usage", "cpu_usage", "greater_than", 85, "warning", true⟩
      ⟨"ep1", "cpu_usage_vm1", 90, "percent", 3, "healthy"⟩
      emptyDb ⟨[], []⟩ (by decide)).1⟩

/-- C7: with a failing notification delivery, the alert row is still in the
alerts table after trigger_alert returns (the insert happens before the
delivery attempt and the delivery exception is caught), the delivered log
is unchanged, and the evaluation fold moves on to the next (rule, sample)
pair from the state the failed pair produced. -/
theorem C7_delivery_failure_isolated (now : Int) (rule : AlertRule)
    (m : MetricData) (db : Database) (log : NotifyLog)
    (deliver : String → Bool) :
    (⟨db.nextAlertId, rule.name, m.endpoint, m.metric_name, m.value,
        rule.threshold, rule.severity, alertMessage rule m, now,
        false⟩ : AlertRow) ∈
      (trigger_alert now false rule m (db, log)).1.alerts ∧
    (trigger_alert now false rule m (db, log)).2.delivered =
      log.delivered ∧
    (∀ (ms : List MetricData) (st : Database × NotifyLog),
      (m :: ms).foldl (fun st x => processPair now deliver rule x st) st =
        ms.foldl (fun st x => processPair now deliver rule x st)
          (processPair now deliver rule m st)) := by
  refine ⟨?_, ?_, fun ms st => rfl⟩
  · simp [trigger_alert, store_alert]
  · by_cases hs : rule.severity = "warning" ∨ rule.severity = "critical"
    · simp [trigger_alert, send_email_alert, hs]
    · simp [trigger_alert, send_email_alert, hs]

/-- Helper for C10: a string is contained in anything it ends. -/
theorem strContains_append_right (pre pat : String) :
    strContains pat (pre ++ pat) = true := by
  apply decide_eq_true
  have h : (pre ++ pat).data = pre.data ++ pat.data := String.data_append pre pat
  rw [h]
  exact (List.suffix_append pre.data pat.data).isInfix

/-- C10: the timestamp column of the stored alert row is the evaluation
wall-clock time now (the datetime.now() of the insert), not the timestamp
of the triggering sample, which only occurs inside the message text. -/
theorem C10_alert_timestamp_is_store_time (now : Int) (deliverOk : Bool)
    (rule : AlertRule) (m : MetricData) (db : Database) (log : NotifyLog) :
    (trigger_alert now deliverOk rule m (db, log)).1.alerts =
      db.alerts ++ [⟨db.nextAlertId, rule.name, m.endpoint, m.metric_name,
        m.value, rule.threshold, rule.severity, alertMessage rule m, now,
        false⟩] ∧
    strContains (toString m.timestamp) (alertMessage rule m) = true ∧
    (now ≠ m.timestamp →
      ((trigger_alert now deliverOk rule m (db, log)).1.alerts.getLast?).map
          AlertRow.timestamp ≠ some m.timestamp) := by
  refine ⟨by simp [trigger_alert, store_alert], ?_, ?_⟩
  · exact strContains_append_right _ _
  · intro hne
    have h1 : (trigger_alert now deliverOk rule m (db, log)).1.alerts =
        db.alerts ++ [⟨db.nextAlertId, rule.name, m.endpoint, m.metric_name,
          m.value, rule.threshold, rule.severity, alertMessage rule m, now,
          false⟩] := by
      simp [trigger_alert, store_alert]
    rw [h1, List.getLast?_concat]
    simpa using hne

/-- C10 witness: with the sample taken at time 3 but stored at time 5, the
persisted alert carries timestamp 5. -/
theorem C10_alert_timestamp_is_store_time_witness :
    (5 : Int) ≠ 3 ∧
    ((trigger_alert 5 true
        ⟨"High CPU Usage", "cpu_usage", "greater_than", 85, "warning", true⟩
        ⟨"ep1", "cpu_usage_vm1", 90, "percent", 3, "healthy"⟩
        (emptyDb, ⟨[], []⟩)).1.alerts.getLast?).map AlertRow.timestamp ≠
      some (3 : Int) :=
  ⟨by decide,
   (C10_alert_timestamp_is_store_time 5 true
      ⟨"High CPU Usage", "cpu_usage", "greater_than", 85, "warning", true⟩
      ⟨"ep1", "cpu_usage_vm1", 90, "percent", 3, "healthy"⟩
      emptyDb ⟨[], []⟩).2.2 (by decide)⟩

/-- C4: during a tick, whatever the fetch outcomes of the other endpoints
are (the fetch oracle is arbitrary, so in particular it may fail on any of
them with an exception, auth failure or non-2xx response), every sample of
the batch of an enabled endpoint of a recognised type is written to the
store; the tick itself is a total function, so no fetch failure aborts
it. -/
theorem C4_partial_failure_isolation
    (fetchResources : AriaEndpoint → Except String (List String))
    (now : Int) (endpoints : List AriaEndpoint) (db : Database)
    (e : AriaEndpoint) (he : e ∈ endpoints) (hen : e.enabled = true)
    (ht : e.type = "operations" ∨ e.type = "automation" ∨
      e.type = "network-insight") :
    ∀ m ∈ endpointBatch fetchResources now e,
      metricData m ∈
        (collect_all_metrics (fun _ => true) fetchResources now endpoints
            db).metrics.map rowProj := by
  intro m hm
  have htask : e ∈ collect_tasks endpoints := by
    rw [collect_tasks, List.mem_filter]
    refine ⟨he, ?_⟩
    rcases ht with h | h | h <;> simp [hen, h]
  obtain ⟨s, t, hst⟩ := List.append_of_mem htask
  rw [collect_all_metrics, hst, List.foldl_append, List.foldl_cons]
  apply foldl_collectTask_mem
  rw [collectTask_fst_metrics]
  rw [takeWhile_const_true]
  exact List.mem_append_right _ (List.mem_map_of_mem metricData hm)

/-- C4 witness: with two enabled endpoints and a fetch oracle that fails
on the operations endpoint, the sample batch of the automation endpoint is
still fully written during the tick. -/
theorem C4_partial_failure_isolation_witness :
    autoEndpoint ∈ [opsFailEndpoint, autoEndpoint] ∧
    autoEndpoint.enabled = true ∧
    (autoEndpoint.type = "operations" ∨ autoEndpoint.type = "automation" ∨
      autoEndpoint.type = "network-insight") ∧
    autoSample ∈ endpointBatch failingFetch 0 autoEndpoint ∧
    metricData autoSample ∈
      (collect_all_metrics (fun _ => true) failingFetch 0
          [opsFailEndpoint, autoEndpoint] emptyDb).metrics.map rowProj :=
  ⟨by decide, by decide, by decide, by decide,
   C4_partial_failure_isolation failingFetch 0
     [opsFailEndpoint, autoEndpoint] emptyDb autoEndpoint (by decide)
     (by decide) (by decide) autoSample (by decide)⟩

/-- C9: an enabled endpoint whose type string is none of operations,
automation or network-insight gets no task during a tick and raises no
error: the task list and the whole tick are the same as if the endpoint
were absent, so it contributes no samples. -/
theorem C9_unknown_type_skipped (canStore : HealthMetric → Bool)
    (fetchResources : AriaEndpoint → Except String (List String))
    (now : Int) (es1 es2 : List AriaEndpoint) (e : AriaEndpoint)
    (db : Database) (hen : e.enabled = true)
    (h1 : e.type ≠ "operations") (h2 : e.type ≠ "automation")
    (h3 : e.type ≠ "network-insight") :
    collect_tasks (es1 ++ e :: es2) = collect_tasks (es1 ++ es2) ∧
    collect_all_metrics canStore fetchResources now (es1 ++ e :: es2) db =
      collect_all_metrics canStore fetchResources now (es1 ++ es2) db := by
  have hfilter : collect_tasks (es1 ++ e :: es2) =
      collect_tasks (es1 ++ es2) := by
    simp [collect_tasks, List.filter_append, List.filter_cons, h1, h2, h3]
  exact ⟨hfilter,
    by rw [collect_all_metrics, hfilter, collect_all_metrics]⟩

/-- C9 witness: an enabled vcenter endpoint is silently skipped by the
tick. -/
theorem C9_unknown_type_skipped_witness :
    vcenterEndpoint.enabled = true ∧
    vcenterEndpoint.type ≠ "operations" ∧
    vcenterEndpoint.type ≠ "automation" ∧
    vcenterEndpoint.type ≠ "network-insight" ∧
    collect_all_metrics (fun _ => true) failingFetch 0
        ([] ++ vcenterEndpoint :: []) emptyDb =
      collect_all_metrics (fun _ => true) failingFetch 0 ([] ++ []) emptyDb :=
  ⟨by decide, by decide, by decide, by decide,
   (C9_unknown_type_skipped (fun _ => true) failingFetch 0 [] []
      vcenterEndpoint emptyDb (by decide) (by decide) (by decide)
      (by decide)).2⟩

/-- C6 counterexample: one fetched resource yields a batch of two samples;
the second insert of the batch raises, so the processing of the fetch
fails mid-stream (flag false), yet one sample of the batch is already in
the store, and the catching caller keeps it — the claimed all-or-nothing
discard does not happen. -/
theorem C6_counterexample :
    (process_operations_resources
        (fun m => m.metric_name != "cluster_cpu_usage_A")
        opsFailEndpoint 0 ["A"] emptyDb).2 = false ∧
    (process_operations_resources
        (fun m => m.metric_name != "cluster_cpu_usage_A")
        opsFailEndpoint 0 ["A"] emptyDb).1.metrics.length = 1 ∧
    (collect_operations_metrics
        (fun m => m.metric_name != "cluster_cpu_usage_A")
        (fun _ => Except.ok ["A"]) 0 opsFailEndpoint
        emptyDb).metrics.length = 1 := by
  decide

/-- C6 as amended: writes are per-sample, not all-or-nothing per fetch. A
fetch whose processing fails mid-stream keeps exactly the samples stored
before the failing insert: the store grows by the longest successfully
stored prefix of the batch, the fetch reports success exactly when the
whole batch stored, and the caller catches the failure keeping the
partially extended store. -/
theorem C6_per_sample_writes (canStore : HealthMetric → Bool)
    (e : AriaEndpoint) (now : Int) (names : List String) (db : Database) :
    (process_operations_resources canStore e now names db).1.metrics.map
        rowProj =
      db.metrics.map rowProj ++
        (((names.flatMap (simulated_metrics e now)).takeWhile
          canStore).map metricData) ∧
    ((process_operations_resources canStore e now names db).2 = true ↔
      (names.flatMap (simulated_metrics e now)).all canStore = true) ∧
    collect_operations_metrics canStore (fun _ => Except.ok names) now e
        db =
      (process_operations_resources canStore e now names db).1 := by
  refine ⟨process_fst_metrics canStore e now names db, ?_, rfl⟩
  rw [process_snd]

/-- C8: after appending a sample whose stored columns occur nowhere else in
the table, a query whose window contains the timestamp of the sample and
whose optional filters match it returns the sample exactly once, and the
query result is ordered newest first. -/
theorem C8_query_returns_appended_once (db : Database) (m : HealthMetric)
    (eo no : Option String) (now : Int) (hours_back : Int)
    (hwin : now - hours_back * 3600 ≤ m.timestamp)
    (hep : eo = none ∨ eo = some m.endpoint)
    (hmn : no = none ∨ no = some m.metric_name)
    (hfresh : ∀ r ∈ db.metrics, rowProj r ≠ metricData m) :
    (get_metrics (store_metric db m) eo no now hours_back).countP
        (fun d => decide (d = metricData m)) = 1 ∧
    List.Pairwise (fun a b : MetricData => b.timestamp ≤ a.timestamp)
      (get_metrics (store_metric db m) eo no now hours_back) := by
  have hpass : metricFilter eo no (now - hours_back * 3600)
      ⟨db.nextMetricId, m.endpoint, m.metric_name, m.value, m.unit,
        m.timestamp, m.status⟩ = true := by
    rcases hep with h | h <;> rcases hmn with h2 | h2 <;>
      simp [metricFilter, h, h2, hwin]
  constructor
  · rw [get_metrics, List.countP_map,
      (List.perm_insertionSort newerFirst _).countP_eq, List.countP_filter,
      store_metric]
    simp only [List.countP_append]
    have h0 : (db.metrics.countP fun a =>
        ((fun d => decide (d = metricData m)) ∘ rowProj) a &&
          metricFilter eo no (now - hours_back * 3600) a) = 0 := by
      rw [List.countP_eq_zero]
      intro r hr
      simp [Function.comp, hfresh r hr]
    rw [h0]
    simp [List.countP_cons, Function.comp, hpass, rowProj, metricData]
  · rw [get_metrics]
    apply List.pairwise_map.mpr
    exact List.sorted_insertionSort newerFirst _

/-- C8 witness: a sample appended to the empty store and queried back with
matching filters and a window containing its timestamp comes back exactly
once. -/
theorem C8_query_returns_appended_once_witness :
    ((1000 : Int) - 1 * 3600 ≤ 1000) ∧
    (get_metrics
        (store_metric emptyDb
          ⟨"e1", "cpu_usage", 90, "percent", 1000, "healthy", 80, 90⟩)
        (some "e1") (some "cpu_usage") 1000 1).countP
      (fun d => decide
        (d = metricData
          ⟨"e1", "cpu_usage", 90, "percent", 1000, "healthy", 80, 90⟩)) =
      1 :=
  ⟨by decide,
   (C8_query_returns_appended_once emptyDb
      ⟨"e1", "cpu_usage", 90, "percent", 1000, "healthy", 80, 90⟩
      (some "e1") (some "cpu_usage") 1000 1 (by decide)
      (Or.inr rfl) (Or.inr rfl) (by simp [emptyDb])).1⟩

end AriaDash
